import Mathlib

/-!
Verification of the Synergy Approval Workflow Engine of the
synergies-ma-platform repository.

The definitions below are a shallow embedding of the workflow-related
frontend code:
  - src/frontend/lib/types.ts            (data model)
  - src/frontend/hooks/useWorkflow.ts    (current-state derivation)
  - src/frontend/components/workflow/WorkflowPipeline.tsx (stage projection)
  - src/frontend/components/workflow/WorkflowStage.tsx    (stage metadata)
  - src/frontend/components/dashboard/WorkflowOverview.tsx (grouping)
TypeScript numbers are modelled as Int (no arithmetic on them is needed),
string-or-null as Option String, optional fields as Option.
-/

namespace MA

/-- WorkflowState from src/frontend/lib/types.ts. -/
inductive WorkflowState where
  | draft
  | review
  | approved
  | realized
  | rejected
deriving DecidableEq, Repr, Fintype

/-- WorkflowAction from src/frontend/lib/types.ts. -/
inductive WorkflowAction where
  | submit
  | approve
  | reject
  | realize
  | return_to_draft
deriving DecidableEq, Repr, Fintype

/-- The stage status union type of getStageStatus in WorkflowPipeline.tsx. -/
inductive StageStatus where
  | complete
  | active
  | pending
  | rejected
deriving DecidableEq, Repr, Fintype

/-- WorkflowTransition from src/frontend/lib/types.ts. -/
structure WorkflowTransition where
  id : Int
  synergy_id : Int
  from_state : WorkflowState
  to_state : WorkflowState
  action : WorkflowAction
  user_id : Int
  user_email : String
  comment : Option String
  created_at : String
deriving DecidableEq, Repr

/-- useCurrentWorkflowState from src/frontend/hooks/useWorkflow.ts:
returns draft when the fetched transition array is absent or empty,
otherwise the to_state of the last array element. -/
def useCurrentWorkflowState (transitions : Option (List WorkflowTransition)) :
    WorkflowState :=
  match transitions with
  | none => WorkflowState.draft
  | some l =>
    match l.getLast? with
    | none => WorkflowState.draft
    | some t => t.to_state

/-- WORKFLOW_STAGES from WorkflowPipeline.tsx. -/
def WORKFLOW_STAGES : List WorkflowState :=
  [WorkflowState.draft, WorkflowState.review,
   WorkflowState.approved, WorkflowState.realized]

/-- JavaScript Array.prototype.indexOf over workflow states: index of the
first occurrence, or -1 when absent. -/
def jsIndexOf : List WorkflowState → WorkflowState → Int
  | [], _ => -1
  | s :: rest, x =>
    if x = s then 0
    else
      let r := jsIndexOf rest x
      if r = -1 then -1 else r + 1

/-- getStageStatus from WorkflowPipeline.tsx. The currentState argument has
TypeScript type WorkflowState or undefined; currentState or-else draft is
modelled by Option.getD. -/
def getStageStatus (currentState : Option WorkflowState)
    (stage : WorkflowState) : StageStatus :=
  if currentState = some WorkflowState.rejected ∧ stage ≠ WorkflowState.draft then
    StageStatus.rejected
  else if currentState = some stage then
    StageStatus.active
  else
    let stageIndex := jsIndexOf WORKFLOW_STAGES stage
    let currentIndex := jsIndexOf WORKFLOW_STAGES (currentState.getD WorkflowState.draft)
    if stageIndex < currentIndex then StageStatus.complete else StageStatus.pending

/-- The stageTransitions map built in WorkflowPipeline.tsx: a forEach over
the transition array that records a transition under its to_state only when
that key is not yet present (first write wins). -/
def stageTransitions (transitions : List WorkflowTransition) :
    WorkflowState → Option WorkflowTransition :=
  transitions.foldl
    (fun m t =>
      if (m t.to_state).isSome then m
      else fun s => if s = t.to_state then some t else m s)
    (fun _ => none)

/-- The transition metadata block of WorkflowStage.tsx: rendered only when
compact is off, a transition is present and the status is complete; it shows
the actor email and the created_at timestamp of that transition. -/
def displayedStageMeta (transition : Option WorkflowTransition)
    (status : StageStatus) (compact : Bool) : Option (String × String) :=
  if compact = false ∧ status = StageStatus.complete then
    transition.map (fun t => (t.user_email, t.created_at))
  else none

/-- Entity from src/frontend/lib/types.ts. -/
structure Entity where
  id : Int
  name : String
  type : String
  description : Option String
  created_at : String
  updated_at : String
deriving DecidableEq, Repr

/-- Industry from src/frontend/lib/types.ts. -/
structure Industry where
  id : Int
  name : String
  description : Option String
  created_at : String
  updated_at : String
deriving DecidableEq, Repr

/-- The Function interface from src/frontend/lib/types.ts (business
function of a synergy). -/
structure Function where
  id : Int
  name : String
  description : Option String
  created_at : String
  updated_at : String
deriving DecidableEq, Repr

/-- Category from src/frontend/lib/types.ts. -/
structure Category where
  id : Int
  name : String
  description : Option String
  created_at : String
  updated_at : String
deriving DecidableEq, Repr

/-- SynergyMetric from src/frontend/lib/types.ts. -/
structure SynergyMetric where
  id : Int
  synergy_id : Int
  metric_type : String
  category : String
  line_item : String
  value : Int
  unit : String
  description : String
  confidence : String
  assumption : String
  data_source : String
  created_at : String
deriving DecidableEq, Repr

/-- Synergy from src/frontend/lib/types.ts. -/
structure Synergy where
  id : Int
  source_entity_id : Int
  target_entity_id : Int
  synergy_type : String
  value_low : Int
  value_high : Int
  description : String
  realization_timeline : String
  confidence_level : String
  status : String
  industry_id : Option Int
  function_id : Option Int
  category_id : Option Int
  created_at : String
  updated_at : String
  industry : Option Industry
  function : Option Function
  category : Option Category
  source_entity : Option Entity
  target_entity : Option Entity
  current_workflow_state : Option WorkflowState
  workflow_transitions : Option (List WorkflowTransition)
  metrics : Option (List SynergyMetric)
deriving DecidableEq, Repr

/-- The five groups computed by synergyGroups in WorkflowOverview.tsx. -/
structure SynergyGroups where
  draft : List Synergy
  review : List Synergy
  approved : List Synergy
  realized : List Synergy
  rejected : List Synergy
deriving DecidableEq, Repr

/-- synergyGroups from WorkflowOverview.tsx: the draft group takes
synergies whose current_workflow_state is absent or draft; the other four
groups filter on equality with their state. -/
def synergyGroups (synergies : List Synergy) : SynergyGroups where
  draft := synergies.filter (fun s =>
    decide (s.current_workflow_state = none ∨
            s.current_workflow_state = some WorkflowState.draft))
  review := synergies.filter (fun s =>
    decide (s.current_workflow_state = some WorkflowState.review))
  approved := synergies.filter (fun s =>
    decide (s.current_workflow_state = some WorkflowState.approved))
  realized := synergies.filter (fun s =>
    decide (s.current_workflow_state = some WorkflowState.realized))
  rejected := synergies.filter (fun s =>
    decide (s.current_workflow_state = some WorkflowState.rejected))

/-- Modelled from the spec: the store-side transition record additionally
carries a sequence number, monotonically increasing per record and assigned
at commit time (spec section 3); the frontend WorkflowTransition type in
src/frontend/lib/types.ts does not expose this field, and the store code is
not part of the visible source. -/
structure LoggedTransition where
  sequence : Nat
  tr : WorkflowTransition
deriving DecidableEq, Repr

/-- Modelled from the spec: the server-side State Machine of spec section
4.1 is not part of the visible source (only the WorkflowState and
WorkflowAction enums are, in src/frontend/lib/types.ts). NextState maps a
(current state, action) pair to the next state, or none for an illegal
pair; the legal edges are exactly the rows of the section 4.1 table. -/
def NextState : WorkflowState → WorkflowAction → Option WorkflowState
  | WorkflowState.draft, WorkflowAction.submit => some WorkflowState.review
  | WorkflowState.review, WorkflowAction.approve => some WorkflowState.approved
  | WorkflowState.review, WorkflowAction.reject => some WorkflowState.rejected
  | WorkflowState.review, WorkflowAction.return_to_draft => some WorkflowState.draft
  | WorkflowState.approved, WorkflowAction.realize => some WorkflowState.realized
  | WorkflowState.approved, WorkflowAction.reject => some WorkflowState.rejected
  | WorkflowState.rejected, WorkflowAction.return_to_draft => some WorkflowState.draft
  | _, _ => none

/-- The rows of the spec section 4.1 transition table, as
(from, action, to) triples, in table order. -/
def transitionTable : List (WorkflowState × WorkflowAction × WorkflowState) :=
  [(WorkflowState.draft, WorkflowAction.submit, WorkflowState.review),
   (WorkflowState.review, WorkflowAction.approve, WorkflowState.approved),
   (WorkflowState.review, WorkflowAction.reject, WorkflowState.rejected),
   (WorkflowState.review, WorkflowAction.return_to_draft, WorkflowState.draft),
   (WorkflowState.approved, WorkflowAction.realize, WorkflowState.realized),
   (WorkflowState.approved, WorkflowAction.reject, WorkflowState.rejected),
   (WorkflowState.rejected, WorkflowAction.return_to_draft, WorkflowState.draft)]

/-- A concrete submit transition (draft to review), sample data. -/
def tSubmit : WorkflowTransition where
  id := 1
  synergy_id := 7
  from_state := WorkflowState.draft
  to_state := WorkflowState.review
  action := WorkflowAction.submit
  user_id := 3
  user_email := "alice@example.com"
  comment := none
  created_at := "2026-01-05T10:00:00Z"

/-- A concrete reject transition (review to rejected), sample data. -/
def tReject : WorkflowTransition where
  id := 2
  synergy_id := 7
  from_state := WorkflowState.review
  to_state := WorkflowState.rejected
  action := WorkflowAction.reject
  user_id := 4
  user_email := "bob@example.com"
  comment := some "not viable"
  created_at := "2026-01-06T09:00:00Z"

/-- A concrete reopen transition (rejected to draft), sample data. -/
def tReturn : WorkflowTransition where
  id := 3
  synergy_id := 7
  from_state := WorkflowState.rejected
  to_state := WorkflowState.draft
  action := WorkflowAction.return_to_draft
  user_id := 3
  user_email := "alice@example.com"
  comment := none
  created_at := "2026-01-07T08:00:00Z"

/-- A second submit transition into review after a reopen, sample data. -/
def tResubmit : WorkflowTransition where
  id := 4
  synergy_id := 7
  from_state := WorkflowState.draft
  to_state := WorkflowState.review
  action := WorkflowAction.submit
  user_id := 5
  user_email := "carol@example.com"
  comment := none
  created_at := "2026-01-08T11:00:00Z"

/-- A concrete synergy whose current workflow state is review, sample data. -/
def sampleSynergy : Synergy where
  id := 1
  source_entity_id := 1
  target_entity_id := 2
  synergy_type := "cost"
  value_low := 100
  value_high := 200
  description := "sample"
  realization_timeline := "12m"
  confidence_level := "high"
  status := "IDENTIFIED"
  industry_id := none
  function_id := none
  category_id := none
  created_at := "2026-01-01"
  updated_at := "2026-01-02"
  industry := none
  function := none
  category := none
  source_entity := none
  target_entity := none
  current_workflow_state := some WorkflowState.review
  workflow_transitions := none
  metrics := none

/-! Theorems. -/

/-- C6: The pipeline used for stage projection is exactly the ordered
sequence [draft, review, approved, realized], and rejected is not a member
of it. -/
theorem workflowStages_pipeline :
    WORKFLOW_STAGES = [WorkflowState.draft, WorkflowState.review,
                       WorkflowState.approved, WorkflowState.realized] ∧
    WorkflowState.rejected ∉ WORKFLOW_STAGES := by
  decide

/-- C10: When the transition list is absent, useCurrentWorkflowState
returns draft, the same result as for a genuinely empty history. -/
theorem absent_history_is_draft :
    useCurrentWorkflowState none = WorkflowState.draft ∧
    useCurrentWorkflowState none = useCurrentWorkflowState (some []) := by
  decide

/-- C5: A record whose transition list is exactly one submit transition
(draft to review) has derived current state review, and the projection over
the pipeline gives draft complete, review active, approved pending,
realized pending. -/
theorem submit_scenario :
    useCurrentWorkflowState (some [tSubmit]) = WorkflowState.review ∧
    getStageStatus (some (useCurrentWorkflowState (some [tSubmit])))
      WorkflowState.draft = StageStatus.complete ∧
    getStageStatus (some (useCurrentWorkflowState (some [tSubmit])))
      WorkflowState.review = StageStatus.active ∧
    getStageStatus (some (useCurrentWorkflowState (some [tSubmit])))
      WorkflowState.approved = StageStatus.pending ∧
    getStageStatus (some (useCurrentWorkflowState (some [tSubmit])))
      WorkflowState.realized = StageStatus.pending := by
  decide

/-- C4: For every pipeline stage other than draft, a rejected current state
projects that stage as rejected. -/
theorem rejected_projects_rejected (stage : WorkflowState)
    (h1 : stage ∈ WORKFLOW_STAGES) (h2 : stage ≠ WorkflowState.draft) :
    getStageStatus (some WorkflowState.rejected) stage = StageStatus.rejected := by
  cases stage <;> revert h1 h2 <;> decide

/-- Witness for C4 at the review stage. -/
theorem rejected_projects_rejected_witness :
    getStageStatus (some WorkflowState.rejected) WorkflowState.review =
      StageStatus.rejected :=
  rejected_projects_rejected WorkflowState.review (by decide) (by decide)

/-- C3: The stage projection is a function of the current state alone: two
transition histories with the same derived current state give every stage
the same projected status. -/
theorem getStageStatus_noninterference
    (l1 l2 : Option (List WorkflowTransition))
    (h : useCurrentWorkflowState l1 = useCurrentWorkflowState l2)
    (stage : WorkflowState) :
    getStageStatus (some (useCurrentWorkflowState l1)) stage =
      getStageStatus (some (useCurrentWorkflowState l2)) stage := by
  rw [h]

/-- Witness for C3: an empty history and a reopened history that both
derive state draft project the review stage identically. -/
theorem getStageStatus_noninterference_witness :
    getStageStatus (some (useCurrentWorkflowState (some []))) WorkflowState.review =
      getStageStatus (some (useCurrentWorkflowState
        (some [tSubmit, tReject, tReturn]))) WorkflowState.review :=
  getStageStatus_noninterference (some []) (some [tSubmit, tReject, tReturn])
    (by decide) WorkflowState.review

/-- C2 counterexample: for a record rejected out of review, the code
projects the draft stage as pending, not complete (the rejected state has
index -1 in WORKFLOW_STAGES, so no stage index is below it). -/
theorem rejected_scenario_draft_not_complete :
    useCurrentWorkflowState (some [tSubmit, tReject]) = WorkflowState.rejected ∧
    getStageStatus (some (useCurrentWorkflowState (some [tSubmit, tReject])))
      WorkflowState.draft ≠ StageStatus.complete := by
  decide

/-- C2 amended: for a record whose derived current state is rejected, the
projection gives the draft stage pending and every other pipeline stage
rejected. -/
theorem rejected_scenario_projection (ts : Option (List WorkflowTransition))
    (h : useCurrentWorkflowState ts = WorkflowState.rejected) :
    getStageStatus (some (useCurrentWorkflowState ts)) WorkflowState.draft =
      StageStatus.pending ∧
    ∀ stage, stage ∈ WORKFLOW_STAGES → stage ≠ WorkflowState.draft →
      getStageStatus (some (useCurrentWorkflowState ts)) stage =
        StageStatus.rejected := by
  rw [h]
  decide

/-- Witness for the amended C2 at a concrete rejected history. -/
theorem rejected_scenario_projection_witness :
    getStageStatus (some (useCurrentWorkflowState (some [tSubmit, tReject])))
      WorkflowState.draft = StageStatus.pending ∧
    ∀ stage, stage ∈ WORKFLOW_STAGES → stage ≠ WorkflowState.draft →
      getStageStatus (some (useCurrentWorkflowState (some [tSubmit, tReject])))
        stage = StageStatus.rejected :=
  rejected_scenario_projection (some [tSubmit, tReject]) (by decide)

set_option maxRecDepth 4096 in
/-- C7: NextState realizes exactly the section 4.1 table: every listed
(from, action) pair maps to its listed target state, every unlisted pair is
rejected, and realized has no outgoing transition for any action. -/
theorem nextState_matches_table :
    (∀ e ∈ transitionTable, NextState e.1 e.2.1 = some e.2.2) ∧
    (∀ s a, (∀ e ∈ transitionTable, ¬(e.1 = s ∧ e.2.1 = a)) →
      NextState s a = none) ∧
    (∀ a, NextState WorkflowState.realized a = none) := by
  decide

set_option maxRecDepth 4096 in
/-- Witness for C7 at a concrete unlisted pair. -/
theorem nextState_matches_table_witness :
    NextState WorkflowState.realized WorkflowAction.submit = none :=
  nextState_matches_table.2.1 WorkflowState.realized WorkflowAction.submit
    (by decide)

/-- Generalized accumulator lemma for stageTransitions: folding the
first-write-wins update over a transition list, an already-bound key keeps
its value and an unbound key receives the first matching transition. -/
theorem stageTransitions_go (ts : List WorkflowTransition)
    (m : WorkflowState → Option WorkflowTransition) (s : WorkflowState) :
    List.foldl
      (fun m t =>
        if (m t.to_state).isSome then m
        else fun x => if x = t.to_state then some t else m x) m ts s
    = (m s).orElse (fun _ => ts.find? (fun t => decide (t.to_state = s))) := by
  induction ts generalizing m with
  | nil => cases hm : m s <;> simp [hm, Option.orElse]
  | cons t ts ih =>
    rw [List.foldl_cons, ih]
    cases hm : m t.to_state with
    | some u =>
      simp only [hm, Option.isSome_some, if_true]
      cases hm2 : m s with
      | some v => simp [Option.orElse]
      | none =>
        have hne : (t.to_state = s) = False := by
          refine eq_false ?_
          intro he
          rw [he, hm2] at hm
          cases hm
        simp [Option.orElse, List.find?, hne]
    | none =>
      simp only [hm, Option.isSome_none, Bool.false_eq_true, if_false]
      by_cases hx : s = t.to_state
      · subst hx
        rw [hm]
        simp [Option.orElse, List.find?]
      · have hne : (t.to_state = s) = False := by
          refine eq_false ?_
          intro he
          exact hx he.symm
        simp only [if_neg hx]
        cases hm2 : m s with
        | some v => simp [Option.orElse]
        | none => simp [Option.orElse, List.find?, hne]

/-- C8: The stageTransitions map sends each workflow state to the first
transition into that state in the array (not the most recent one), and the
metadata displayed on a completed stage is exactly the actor and timestamp
of that first transition. -/
theorem stageTransitions_first (ts : List WorkflowTransition)
    (s : WorkflowState) :
    stageTransitions ts s = ts.find? (fun t => decide (t.to_state = s)) ∧
    displayedStageMeta (stageTransitions ts s) StageStatus.complete false =
      (ts.find? (fun t => decide (t.to_state = s))).map
        (fun t => (t.user_email, t.created_at)) := by
  have h := stageTransitions_go ts (fun _ => none) s
  simp only [Option.orElse] at h
  constructor
  · exact h
  · rw [stageTransitions, h]
    simp [displayedStageMeta]

/-- Mapping the underlying transition out of a logged transition commutes
with taking the last element. -/
theorem getLast?_map_tr (l : List LoggedTransition) :
    (l.map LoggedTransition.tr).getLast? =
      l.getLast?.map LoggedTransition.tr := by
  induction l with
  | nil => rfl
  | cons a l ih =>
    cases l with
    | nil => rfl
    | cons b l2 => simpa using ih

/-- In a list strictly sorted by sequence, an element of maximal sequence
is the last element. -/
theorem maxSeq_getLast (l : List LoggedTransition)
    (hs : l.Pairwise (fun a b => a.sequence < b.sequence))
    (t : LoggedTransition) (ht : t ∈ l)
    (hmax : ∀ u ∈ l, u.sequence ≤ t.sequence) :
    l.getLast? = some t := by
  induction l with
  | nil => cases ht
  | cons a l ih =>
    rcases List.pairwise_cons.mp hs with ⟨ha, hl⟩
    cases l with
    | nil =>
      rcases List.mem_singleton.mp ht with rfl
      rfl
    | cons b l2 =>
      have htl : t ∈ b :: l2 := by
        rcases List.mem_cons.mp ht with rfl | h
        · exact absurd (hmax b (by simp))
            (not_le.mpr (ha b (by simp)))
        · exact h
      have : (b :: l2).getLast? = some t :=
        ih hl htl (fun u hu => hmax u (List.mem_cons_of_mem a hu))
      simpa using this

/-- C1: Under the spec invariant that the fetched transition array is
strictly ordered by sequence, the derived current workflow state is draft
for an empty list and otherwise the to_state of the transition with the
highest sequence. -/
theorem currentState_from_max_sequence (l : List LoggedTransition)
    (hs : l.Pairwise (fun a b => a.sequence < b.sequence)) :
    (l = [] →
      useCurrentWorkflowState (some (l.map LoggedTransition.tr)) =
        WorkflowState.draft) ∧
    (∀ t, t ∈ l → (∀ u, u ∈ l → u.sequence ≤ t.sequence) →
      useCurrentWorkflowState (some (l.map LoggedTransition.tr)) =
        t.tr.to_state) := by
  constructor
  · intro h
    subst h
    rfl
  · intro t ht hmax
    have hlast := maxSeq_getLast l hs t ht hmax
    simp [useCurrentWorkflowState, getLast?_map_tr, hlast]

/-- Witness for C1: a two-transition history sorted by sequence derives the
state of its highest-sequence transition. -/
theorem currentState_from_max_sequence_witness :
    useCurrentWorkflowState
      (some (List.map LoggedTransition.tr
        [⟨1, tSubmit⟩, ⟨2, tReject⟩])) = WorkflowState.rejected :=
  (currentState_from_max_sequence [⟨1, tSubmit⟩, ⟨2, tReject⟩]
    (by decide)).2 ⟨2, tReject⟩ (by decide) (by decide)

/-- C9: The five groups computed by WorkflowOverview partition the input
synergy list: every member synergy lies in exactly one group, and a synergy
with no current workflow state lies in the draft group. -/
theorem synergyGroups_partition (syns : List Synergy) (s : Synergy)
    (h : s ∈ syns) :
    ((if s ∈ (synergyGroups syns).draft then 1 else 0) +
     (if s ∈ (synergyGroups syns).review then 1 else 0) +
     (if s ∈ (synergyGroups syns).approved then 1 else 0) +
     (if s ∈ (synergyGroups syns).realized then 1 else 0) +
     (if s ∈ (synergyGroups syns).rejected then 1 else 0) = 1) ∧
    (s.current_workflow_state = none → s ∈ (synergyGroups syns).draft) := by
  cases hcw : s.current_workflow_state with
  | none => simp [synergyGroups, List.mem_filter, h, hcw]
  | some st => cases st <;> simp [synergyGroups, List.mem_filter, h, hcw]

/-- Witness for C9 at a concrete one-element list. -/
theorem synergyGroups_partition_witness :
    ((if sampleSynergy ∈ (synergyGroups [sampleSynergy]).draft then 1 else 0) +
     (if sampleSynergy ∈ (synergyGroups [sampleSynergy]).review then 1 else 0) +
     (if sampleSynergy ∈ (synergyGroups [sampleSynergy]).approved then 1 else 0) +
     (if sampleSynergy ∈ (synergyGroups [sampleSynergy]).realized then 1 else 0) +
     (if sampleSynergy ∈ (synergyGroups [sampleSynergy]).rejected then 1 else 0)
       = 1) ∧
    (sampleSynergy.current_workflow_state = none →
      sampleSynergy ∈ (synergyGroups [sampleSynergy]).draft) :=
  synergyGroups_partition [sampleSynergy] sampleSynergy (by simp)

end MA
